import Mathlib

set_option maxHeartbeats 1000000

/- Verification of the RecursiveModelIndex container from
src/RecursiveModelIndex.h.  The C++ class template is instantiated at
integer keys and integer values (the numeric instantiation the design
assumes: keys must be castable to a scalar, and a value-initialized
record is the zero pair).  The two neural-network members are the
external regression capability that the design places out of scope;
their weights never influence the container state transitions, and the
routing arithmetic of trainSecondStage is modelled separately over the
predicted position.  std::sort is embedded by its contract: it produces
some permutation of the range that is sorted for the comparator, with
the relative order of equivalent elements unspecified. -/

/-- A stored record of the index: a (key, value) pair at the integer
instantiation of the class template. -/
abbrev Rec : Type := Int × Int

/-- Hyperparameters of one network stage (struct NetworkParameters).
The C++ learning rate is a float; it never influences the container
state, so a rational stands in for it. -/
structure NetworkParameters where
  batchSize : Int
  maxNumEpochs : Int
  learningRate : Rat
  numNeurons : Int

/-- The data members of class RecursiveModelIndex that carry records:
m_data (the ordered dataset), m_overflowArray (the overflow buffer),
the overflow counter and the retrain threshold, plus the two stored
parameter structs.  The network members carry no record data. -/
structure RecursiveModelIndex where
  m_firstStageParams : NetworkParameters
  m_secondStageParams : NetworkParameters
  m_data : List Rec
  m_overflowArray : List Rec
  m_currentOverflowSize : Int
  m_maxOverflowSize : Int

/-- The constructor (source lines 95-113).  Its member-initializer list
sets the two parameter structs and m_maxOverflowSize; the two vectors
are default-constructed empty.  m_currentOverflowSize appears in no
member-initializer list and has no default member value, so for a plain
int member it is left holding an indeterminate value; the argument
`indet` models that arbitrary value. -/
def RecursiveModelIndex.construct (firstStageParams secondStageParams : NetworkParameters)
    (maxOverflowSize : Int) (indet : Int) : RecursiveModelIndex :=
  { m_firstStageParams := firstStageParams
    m_secondStageParams := secondStageParams
    m_data := []
    m_overflowArray := []
    m_currentOverflowSize := indet
    m_maxOverflowSize := maxOverflowSize }

/-- find (source lines 126-138): std::find_if scans m_overflowArray for
the first entry whose key equals the query and returns it; when nothing
matches, the function returns a value-initialized pair, which at the
integer instantiation is the zero pair.  The ordered dataset m_data is
never consulted. -/
def RecursiveModelIndex.find (s : RecursiveModelIndex) (key : Int) : Rec :=
  match s.m_overflowArray.find? (fun p => p.1 == key) with
  | some r => r
  | none => (0, 0)

/-- Non-decreasing-by-key comparison between records.  A range is
sorted for the std::sort comparator (p1.first < p2.first) exactly when
it is pairwise ordered by this relation. -/
def keyLe (p q : Rec) : Prop := p.1 ≤ q.1

instance : DecidableRel keyLe := fun p q => inferInstanceAs (Decidable (p.1 ≤ q.1))

instance : IsTotal Rec keyLe := ⟨fun p q => Int.le_total p.1 q.1⟩

instance : IsTrans Rec keyLe := ⟨fun _ _ _ h₁ h₂ => le_trans h₁ h₂⟩

/-- The contract of the std::sort call in train (source lines 146-148):
the result is some permutation of the input range that is sorted for
the comparator.  std::sort does not promise stability, so the relative
order of records with equal keys is unspecified. -/
def IsSortedPermOf (result input : List Rec) : Prop :=
  result.Perm input ∧ result.Pairwise keyLe

/-- One std::sort-conforming outcome, used to run the index on concrete
inputs: an insertion sort by key. -/
def sortByKey (l : List Rec) : List Rec :=
  List.insertionSort keyLe l

/-- train (source lines 140-156) as a relation on states: append the
overflow array to m_data, sort m_data by key (any std::sort-conforming
result), train both model stages (which touches only the network
members), then clear the overflow array and zero its counter. -/
def RecursiveModelIndex.train (s s' : RecursiveModelIndex) : Prop :=
  IsSortedPermOf s'.m_data (s.m_data ++ s.m_overflowArray) ∧
  s'.m_overflowArray = [] ∧
  s'.m_currentOverflowSize = 0 ∧
  s'.m_maxOverflowSize = s.m_maxOverflowSize ∧
  s'.m_firstStageParams = s.m_firstStageParams ∧
  s'.m_secondStageParams = s.m_secondStageParams

/-- Executable run of train, with sortByKey as the sort outcome. -/
def RecursiveModelIndex.trainExec (s : RecursiveModelIndex) : RecursiveModelIndex :=
  { s with
    m_data := sortByKey (s.m_data ++ s.m_overflowArray)
    m_overflowArray := []
    m_currentOverflowSize := 0 }

/-- The state right after the push_back and the counter increment in
insert (source lines 117-118), before the threshold test. -/
def RecursiveModelIndex.afterPush (s : RecursiveModelIndex) (key value : Int) : RecursiveModelIndex :=
  { s with
    m_overflowArray := s.m_overflowArray ++ [(key, value)]
    m_currentOverflowSize := s.m_currentOverflowSize + 1 }

/-- insert (source lines 115-124) as a relation: push the record onto
the overflow array, increment the counter, and when the counter exceeds
m_maxOverflowSize run train synchronously. -/
def RecursiveModelIndex.insert (s : RecursiveModelIndex) (key value : Int)
    (s' : RecursiveModelIndex) : Prop :=
  if (s.afterPush key value).m_currentOverflowSize > (s.afterPush key value).m_maxOverflowSize
  then (s.afterPush key value).train s'
  else s' = s.afterPush key value

/-- Executable run of insert, with trainExec as the retrain outcome. -/
def RecursiveModelIndex.insertExec (s : RecursiveModelIndex) (key value : Int) : RecursiveModelIndex :=
  if (s.afterPush key value).m_currentOverflowSize > (s.afterPush key value).m_maxOverflowSize
  then (s.afterPush key value).trainExec
  else s.afterPush key value

/-- One public mutating call on the index. -/
inductive Op where
  | ins (key value : Int)
  | train

/-- The effect of one public call, relationally (covering every
std::sort-conforming behavior). -/
def StepRMI (s : RecursiveModelIndex) (o : Op) (s' : RecursiveModelIndex) : Prop :=
  match o with
  | Op.ins k v => s.insert k v s'
  | Op.train => s.train s'

/-- A finite sequence of public calls executed from the first state to
the second. -/
inductive ExecRMI : RecursiveModelIndex → List Op → RecursiveModelIndex → Prop where
  | nil (s : RecursiveModelIndex) : ExecRMI s [] s
  | cons {s s₁ s₂ : RecursiveModelIndex} {o : Op} {ops : List Op} :
      StepRMI s o s₁ → ExecRMI s₁ ops s₂ → ExecRMI s (o :: ops) s₂

/-- Multiset of records currently held by the index: overflow buffer
plus ordered dataset. -/
def RecursiveModelIndex.contents (s : RecursiveModelIndex) : Multiset Rec :=
  (s.m_overflowArray : Multiset Rec) + (s.m_data : Multiset Rec)

/-- Multiset of keys currently held by the index. -/
def RecursiveModelIndex.keyContents (s : RecursiveModelIndex) : Multiset Int :=
  Multiset.map Prod.fst s.contents

/-- The records passed to insert across a call sequence, in order. -/
def insertedRecs (ops : List Op) : List Rec :=
  ops.filterMap fun o =>
    match o with
    | Op.ins k v => some (k, v)
    | Op.train => none

/-- static_cast<int> applied to a scalar: C++ float-to-int conversion
truncates toward zero.  The float prediction is modelled as a rational. -/
def cppCastInt (q : Rat) : Int := if 0 ≤ q then ⌊q⌋ else ⌈q⌉

/-- The stage computation of trainSecondStage (source lines 213-216):
truncate the denormalized stage-1 prediction to int, divide by
secondStageSize with C++ integer division (truncation toward zero,
Int.tdiv), then clamp below by 0 and above by secondStageSize - 1. -/
def computeStage (q : Rat) (secondStageSize : Int) : Int :=
  min (secondStageSize - 1) (max 0 (Int.tdiv (cppCastInt q) secondStageSize))

/-- The routing formula as the design document words it:
clamp(floor(p / N), 0, N - 1). -/
def specStage (q : Rat) (secondStageSize : Int) : Int :=
  min (secondStageSize - 1) (max 0 ⌊q / (secondStageSize : Rat)⌋)

/-- A well-formed parameter set for concrete runs. -/
def demoParams : NetworkParameters :=
  { batchSize := 32, maxNumEpochs := 10, learningRate := 1 / 100, numNeurons := 8 }

/-- A misconfigured parameter set: non-positive batch size. -/
def invalidParams : NetworkParameters :=
  { batchSize := 0, maxNumEpochs := 10, learningRate := 1 / 100, numNeurons := 8 }

/-- A concrete pre-train state: one merged record and two buffered
records. -/
def c5Start : RecursiveModelIndex :=
  { m_firstStageParams := demoParams
    m_secondStageParams := demoParams
    m_data := [(2, 20)]
    m_overflowArray := [(1, 10), (3, 30)]
    m_currentOverflowSize := 2
    m_maxOverflowSize := 10 }

/-- A state whose buffered records carry the same key with two
different values, the merged list already in key order. -/
def tieStart : RecursiveModelIndex :=
  { m_firstStageParams := demoParams
    m_secondStageParams := demoParams
    m_data := []
    m_overflowArray := [(1, 10), (1, 20)]
    m_currentOverflowSize := 2
    m_maxOverflowSize := 10 }

/-- A std::sort-conforming outcome of train on tieStart in which the
two equal-key records end up swapped. -/
def tieSwapped : RecursiveModelIndex :=
  { m_firstStageParams := demoParams
    m_secondStageParams := demoParams
    m_data := [(1, 20), (1, 10)]
    m_overflowArray := []
    m_currentOverflowSize := 0
    m_maxOverflowSize := 10 }

theorem sortByKey_isSortedPermOf (l : List Rec) : IsSortedPermOf (sortByKey l) l :=
  ⟨List.perm_insertionSort keyLe l, List.sorted_insertionSort keyLe l⟩

theorem trainExec_train (s : RecursiveModelIndex) : s.train s.trainExec :=
  ⟨sortByKey_isSortedPermOf _, rfl, rfl, rfl, rfl, rfl⟩

theorem insertExec_insert (s : RecursiveModelIndex) (key value : Int) :
    s.insert key value (s.insertExec key value) := by
  unfold RecursiveModelIndex.insert RecursiveModelIndex.insertExec
  by_cases h : (s.afterPush key value).m_currentOverflowSize > (s.afterPush key value).m_maxOverflowSize
  · rw [if_pos h, if_pos h]
    exact trainExec_train _
  · rw [if_neg h, if_neg h]

theorem afterPush_contents (s : RecursiveModelIndex) (key value : Int) :
    (s.afterPush key value).contents = s.contents + {(key, value)} := by
  show ((s.m_overflowArray ++ [(key, value)] : List Rec) : Multiset Rec) + (s.m_data : Multiset Rec)
      = ((s.m_overflowArray : Multiset Rec) + (s.m_data : Multiset Rec)) + {(key, value)}
  rw [← Multiset.coe_singleton, Multiset.coe_add, Multiset.coe_add, Multiset.coe_add]
  refine Multiset.coe_eq_coe.mpr ?_
  have h1 : s.m_overflowArray ++ [(key, value)] ++ s.m_data
      = s.m_overflowArray ++ (key, value) :: s.m_data := by
    rw [List.append_assoc]
    rfl
  rw [h1]
  exact List.perm_middle.trans (List.perm_append_singleton _ _).symm

theorem train_contents {s s' : RecursiveModelIndex} (h : s.train s') :
    s'.contents = s.contents := by
  unfold RecursiveModelIndex.contents
  rw [h.2.1]
  have hd : (s'.m_data : Multiset Rec) = ((s.m_data ++ s.m_overflowArray : List Rec) : Multiset Rec) :=
    Multiset.coe_eq_coe.mpr h.1.1
  rw [hd, Multiset.coe_nil, zero_add, Multiset.coe_add]
  exact Multiset.coe_eq_coe.mpr List.perm_append_comm

theorem insert_contents {s s' : RecursiveModelIndex} {key value : Int}
    (h : s.insert key value s') :
    s'.contents = s.contents + {(key, value)} := by
  unfold RecursiveModelIndex.insert at h
  by_cases hc : (s.afterPush key value).m_currentOverflowSize > (s.afterPush key value).m_maxOverflowSize
  · rw [if_pos hc] at h
    rw [train_contents h, afterPush_contents]
  · rw [if_neg hc] at h
    rw [h, afterPush_contents]

theorem exec_contents {s s' : RecursiveModelIndex} {ops : List Op}
    (h : ExecRMI s ops s') :
    s'.contents = s.contents + ((insertedRecs ops : List Rec) : Multiset Rec) := by
  induction ops generalizing s with
  | nil =>
    cases h
    simp [insertedRecs]
  | cons o rest ih =>
    cases h with
    | cons hstep hrest =>
      cases o with
      | ins k v =>
        have h₁ := insert_contents hstep
        have h₂ := ih hrest
        have hcons : insertedRecs (Op.ins k v :: rest) = (k, v) :: insertedRecs rest := rfl
        rw [h₂, h₁, hcons, ← Multiset.cons_coe, ← Multiset.singleton_add, add_assoc]
      | train =>
        have h₁ := train_contents hstep
        have h₂ := ih hrest
        have htr : insertedRecs (Op.train :: rest) = insertedRecs rest := rfl
        rw [h₂, h₁, htr]

theorem floor_div_intCast_of_pos (q : Rat) (n : Int) (hn : 0 < n) :
    ⌊q / (n : Rat)⌋ = ⌊q⌋ / n := by
  have hnq : (0 : Rat) < (n : Rat) := by exact_mod_cast hn
  apply le_antisymm
  · rw [Int.le_ediv_iff_mul_le hn]
    have h1 : ((⌊q / (n : Rat)⌋ : Rat)) ≤ q / (n : Rat) := Int.floor_le _
    have h2 : ((⌊q / (n : Rat)⌋ : Rat)) * (n : Rat) ≤ q := (le_div_iff₀ hnq).mp h1
    refine Int.le_floor.mpr ?_
    push_cast
    exact h2
  · rw [Int.le_floor]
    have h1 : ⌊q⌋ / n * n ≤ ⌊q⌋ := Int.ediv_mul_le ⌊q⌋ (ne_of_gt hn)
    have h2 : ((⌊q⌋ / n * n : Int) : Rat) ≤ q := le_trans (by exact_mod_cast h1) (Int.floor_le q)
    rw [le_div_iff₀ hnq]
    push_cast at h2
    exact h2

/-- Claim C7: for every denormalized stage-1 prediction p and bank size
N at least 1, the stage index computed in trainSecondStage equals
clamp(floor(p / N), 0, N - 1), and it always lies in [0, N - 1]. -/
theorem stage_matches_clamped_floor (q : Rat) (n : Int) (hn : 1 ≤ n) :
    computeStage q n = specStage q n ∧
    0 ≤ computeStage q n ∧ computeStage q n ≤ n - 1 := by
  have hn0 : (0 : Int) < n := hn
  refine ⟨?_, ?_, min_le_left _ _⟩
  · unfold computeStage specStage
    by_cases hq : 0 ≤ q
    · have hcast : cppCastInt q = ⌊q⌋ := if_pos hq
      rw [hcast, Int.tdiv_eq_ediv (Int.floor_nonneg.mpr hq) (le_of_lt hn0),
        floor_div_intCast_of_pos q n hn0]
    · have hq' : q < 0 := lt_of_not_le hq
      have hcast : cppCastInt q = ⌈q⌉ := if_neg hq
      have hceil : ⌈q⌉ ≤ 0 := Int.ceil_le.mpr (le_of_lt hq')
      have htd : Int.tdiv (cppCastInt q) n ≤ 0 := by
        rw [hcast]
        have h3 : Int.tdiv (-⌈q⌉) n = -(Int.tdiv ⌈q⌉ n) := Int.neg_tdiv _ _
        have h4 : 0 ≤ Int.tdiv (-⌈q⌉) n := Int.tdiv_nonneg (by linarith) (le_of_lt hn0)
        linarith
      have hfl : ⌊q / (n : Rat)⌋ ≤ 0 := by
        have hdiv : q / (n : Rat) < 0 :=
          div_neg_of_neg_of_pos hq' (by exact_mod_cast hn0)
        have := Int.floor_mono (le_of_lt hdiv)
        simpa using this
      rw [max_eq_left htd, max_eq_left hfl]
  · exact le_min (by linarith) (le_max_left 0 _)

/-- Claim C7 witness: at prediction 7 and bank size 4 the hypothesis
holds and the routing equality and bounds follow. -/
theorem stage_matches_clamped_floor_witness :
    (1 : Int) ≤ 4 ∧
    (computeStage 7 4 = specStage 7 4 ∧
      0 ≤ computeStage 7 4 ∧ computeStage 7 4 ≤ 4 - 1) :=
  ⟨by decide, stage_matches_clamped_floor 7 4 (by decide)⟩

/-- Claim C1: inserting (5, 100) into a fresh index (indeterminate
counter taken as 0) and running an explicit train merges the record
into the ordered dataset, after which find(5) returns the
value-initialized pair (0, 0) instead of the record: find only scans
the overflow buffer, which train just emptied, and never performs the
model-assisted lookup against m_data. -/
theorem find_loses_merged_record :
    (5, 100) ∈ (((RecursiveModelIndex.construct demoParams demoParams 10 0).insertExec
        5 100).trainExec).m_data ∧
    (((RecursiveModelIndex.construct demoParams demoParams 10 0).insertExec
        5 100).trainExec).find 5 = (0, 0) := by
  exact ⟨by decide, by decide⟩

/-- Claim C2: the code signals not-found by returning the
value-initialized pair (0, 0): on an empty index find(7) yields (0, 0),
and after inserting the legitimate record (0, 0) a successful find(0)
yields the very same pair, so the absent signal is indistinguishable
from a stored zero record. -/
theorem find_default_indistinguishable :
    (RecursiveModelIndex.construct demoParams demoParams 10 0).find 7 = (0, 0) ∧
    ((RecursiveModelIndex.construct demoParams demoParams 10 0).insertExec 0 0).find 0
      = (0, 0) := by
  exact ⟨by decide, by decide⟩

/-- Claim C3: with maxOverflowSize = 0 and the indeterminate initial
counter value -1 (the constructor never sets the counter), a single
insert - which is maxOverflowSize + 1 inserts - leaves one record in
the overflow buffer, more than maxOverflowSize, with no retrain fired
and the ordered dataset still empty. -/
theorem insert_overflow_bound_violated :
    ((RecursiveModelIndex.construct demoParams demoParams 0 (-1)).insertExec
        1 1).m_overflowArray.length = 1 ∧
    ((RecursiveModelIndex.construct demoParams demoParams 0 (-1)).insertExec
        1 1).m_maxOverflowSize = 0 ∧
    ((RecursiveModelIndex.construct demoParams demoParams 0 (-1)).insertExec
        1 1).m_data = [] := by
  exact ⟨by decide, by decide, by decide⟩

/-- Claim C4: after any finite sequence of insert and train calls on a
freshly constructed index (any indeterminate initial counter value, any
std::sort-conforming behavior of each retrain), the multiset of keys in
the overflow buffer together with the ordered dataset equals the
multiset of all keys ever passed to insert. -/
theorem exec_preserves_key_multiset (fp sp : NetworkParameters) (m g : Int)
    (ops : List Op) (s' : RecursiveModelIndex)
    (h : ExecRMI (RecursiveModelIndex.construct fp sp m g) ops s') :
    s'.keyContents = Multiset.map Prod.fst ((insertedRecs ops : List Rec) : Multiset Rec) := by
  unfold RecursiveModelIndex.keyContents
  rw [exec_contents h]
  have hz : (RecursiveModelIndex.construct fp sp m g).contents = 0 := rfl
  rw [hz, zero_add]

/-- Claim C4 witness: a concrete run with a duplicate key, an explicit
train and a trailing insert preserves the key multiset. -/
theorem exec_preserves_key_multiset_witness :
    ((((RecursiveModelIndex.construct demoParams demoParams 10 0).insertExec
        3 30).insertExec 3 31).trainExec.insertExec 1 10).keyContents
      = Multiset.map Prod.fst
          ((insertedRecs [Op.ins 3 30, Op.ins 3 31, Op.train, Op.ins 1 10] : List Rec) :
            Multiset Rec) :=
  exec_preserves_key_multiset demoParams demoParams 10 0 _ _
    (ExecRMI.cons (insertExec_insert _ _ _)
      (ExecRMI.cons (insertExec_insert _ _ _)
        (ExecRMI.cons (trainExec_train _)
          (ExecRMI.cons (insertExec_insert _ _ _) (ExecRMI.nil _)))))

/-- Claim C5: after any completed train call - explicit or triggered
from insert - the ordered dataset is non-decreasing by key. -/
theorem train_data_sorted (s s' : RecursiveModelIndex) (h : s.train s') :
    s'.m_data.Pairwise keyLe :=
  h.1.2

/-- Claim C5 witness: training a concrete state with an unsorted buffer
yields a key-sorted dataset. -/
theorem train_data_sorted_witness :
    c5Start.train c5Start.trainExec ∧ c5Start.trainExec.m_data.Pairwise keyLe :=
  ⟨trainExec_train c5Start,
    train_data_sorted c5Start c5Start.trainExec (trainExec_train c5Start)⟩

/-- Claim C6 counterexample: tieStart buffers the records (1, 10) and
(1, 20) in that insertion order, and the merged list is already in key
order, so a stable sort would have to return it unchanged; yet
tieSwapped, in which the two equal-key records are exchanged, is a
legitimate outcome of train, because std::sort guarantees only a sorted
permutation and not stability. -/
theorem train_tie_order_not_stable :
    (tieStart.m_data ++ tieStart.m_overflowArray).Pairwise keyLe ∧
    tieStart.train tieSwapped ∧
    tieSwapped.m_data ≠ tieStart.m_data ++ tieStart.m_overflowArray := by
  refine ⟨by decide, ⟨⟨by decide, by decide⟩, rfl, rfl, rfl, rfl, rfl⟩, by decide⟩

/-- Claim C6 amended: the merging step of every train call produces
some permutation of (prior ordered dataset ++ drained overflow buffer)
that is non-decreasing by key; the relative order of records with equal
keys is unspecified, since std::sort is not a stable sort. -/
theorem train_sorted_perm_of_merged (s s' : RecursiveModelIndex) (h : s.train s') :
    s'.m_data.Perm (s.m_data ++ s.m_overflowArray) ∧ s'.m_data.Pairwise keyLe :=
  h.1

/-- Claim C6 amended witness: a concrete train run yields a key-sorted
permutation of the merged records. -/
theorem train_sorted_perm_of_merged_witness :
    c5Start.train c5Start.trainExec ∧
    (c5Start.trainExec.m_data.Perm (c5Start.m_data ++ c5Start.m_overflowArray) ∧
      c5Start.trainExec.m_data.Pairwise keyLe) :=
  ⟨trainExec_train c5Start,
    train_sorted_perm_of_merged c5Start c5Start.trainExec (trainExec_train c5Start)⟩

/-- Claim C8: two consecutive train calls with no insert in between
leave the ordered dataset content-equal (equal as a multiset of
records) and the overflow buffer unchanged (empty) between the end of
the first call and the end of the second. -/
theorem train_twice_content_equal (s₀ s₁ s₂ : RecursiveModelIndex)
    (h₁ : s₀.train s₁) (h₂ : s₁.train s₂) :
    (s₂.m_data : Multiset Rec) = (s₁.m_data : Multiset Rec) ∧
    s₂.m_overflowArray = s₁.m_overflowArray := by
  have hov : s₁.m_overflowArray = [] := h₁.2.1
  have hperm := h₂.1.1
  rw [hov, List.append_nil] at hperm
  exact ⟨Multiset.coe_eq_coe.mpr hperm, h₂.2.1.trans hov.symm⟩

/-- Claim C8 witness: running train twice on a concrete state keeps the
dataset content and the empty buffer. -/
theorem train_twice_content_equal_witness :
    (c5Start.train c5Start.trainExec ∧ c5Start.trainExec.train c5Start.trainExec.trainExec) ∧
    ((c5Start.trainExec.trainExec.m_data : Multiset Rec)
        = (c5Start.trainExec.m_data : Multiset Rec) ∧
      c5Start.trainExec.trainExec.m_overflowArray = c5Start.trainExec.m_overflowArray) :=
  ⟨⟨trainExec_train c5Start, trainExec_train c5Start.trainExec⟩,
    train_twice_content_equal c5Start c5Start.trainExec c5Start.trainExec.trainExec
      (trainExec_train c5Start) (trainExec_train c5Start.trainExec)⟩

/-- Claim C9 counterexample: constructing with a non-positive batch
size (invalidParams has batchSize = 0) is not rejected: the constructor
contains no validation, and the resulting index is fully usable - an
insert followed by find returns the stored record. -/
theorem construct_accepts_invalid_config :
    (RecursiveModelIndex.construct invalidParams invalidParams 10 0).m_overflowArray = [] ∧
    (RecursiveModelIndex.construct invalidParams invalidParams 10 0).m_data = [] ∧
    ((RecursiveModelIndex.construct invalidParams invalidParams 10 0).insertExec
        5 100).find 5 = (5, 100) := by
  exact ⟨by decide, by decide, by decide⟩

/-- Claim C9 amended: the constructor performs no configuration
validation at all: every parameter combination, including a zero-sized
stage-2 bank or non-positive batch sizes, yields a normally initialized
index with empty dataset and buffer and the given threshold stored;
misconfiguration can only surface later, outside construction. -/
theorem construct_no_validation (fp sp : NetworkParameters) (m g : Int) :
    (RecursiveModelIndex.construct fp sp m g).m_data = [] ∧
    (RecursiveModelIndex.construct fp sp m g).m_overflowArray = [] ∧
    (RecursiveModelIndex.construct fp sp m g).m_maxOverflowSize = m ∧
    (RecursiveModelIndex.construct fp sp m g).m_firstStageParams = fp ∧
    (RecursiveModelIndex.construct fp sp m g).m_secondStageParams = sp :=
  ⟨rfl, rfl, rfl, rfl, rfl⟩

/-- Claim C10: the constructor leaves m_currentOverflowSize holding an
indeterminate value - it is absent from the member-initializer list -
so immediately after construction the counter (here the indeterminate
value 1) differs from the length of the empty overflow array. -/
theorem counter_indeterminate_at_construction :
    (RecursiveModelIndex.construct demoParams demoParams 5 1).m_currentOverflowSize
      ≠ (((RecursiveModelIndex.construct demoParams demoParams 5 1).m_overflowArray.length :
          Int)) ∧
    (RecursiveModelIndex.construct demoParams demoParams 5 1).m_overflowArray = [] := by
  exact ⟨by decide, by decide⟩
